import Mathlib

/-!
Verification development for the jeonghoo-tracker repository.

This file shallowly embeds the tracker's core logic in Lean 4:
`config.py` (tunables), `state.py` (`TrackerState`), `handlers.py`
(`DetectionProcessor`, `VelocityCalculator`, the state handlers and
`StateRouter`), `ptz_manager.py` (`PTZManager` velocity cell and the
background command loop), and the sleep-mode branch of `main.py`.

Modelling conventions:
- Python floats are modelled as rationals (`ℚ`); `time.time()` readings are
  passed explicitly as a `now : ℚ` argument to every method that calls it.
- The float power `x ** config.VELOCITY_EXPONENT` (exponent 1.3) is not
  rational-valued, so `VelocityCalculator.calculate` is parametrised by the
  powering function `pw : ℚ → ℚ`; theorems assume of it only what is true of
  real powering on nonnegative bases (nonnegative inputs give nonnegative
  outputs).
- Fallible Python operations (`%` by zero, list indexing) are modelled with
  `Option`; a `none` result stands for a raised exception.
- The fallback distance filter in `DetectionProcessor.find_best_target`
  compares `math.sqrt(S) > MAX_FALLBACK_DISTANCE`; it is embedded as the
  equivalent square comparison `S > MAX_FALLBACK_DISTANCE ^ 2` (equivalent
  whenever `MAX_FALLBACK_DISTANCE ≥ 0`; the configured value is 0.3).
-/

namespace Jeonghoo

/-- The tunables of `config.py` that the core logic reads (`Config` dataclass).
Only fields used by the embedded code are kept. -/
structure Cfg where
  AUDIO_TRIGGER_TIME : ℚ := 300
  SCAN_INTERVAL : ℚ := 30
  SEARCH_PRESETS : List String := ["1", "2", "4"]
  PAN_DEAD_ZONE : ℚ := 1/10
  TILT_DEAD_ZONE : ℚ := 15/100
  PAN_VELOCITY_MULTIPLIER : ℚ := 3
  TILT_VELOCITY_MULTIPLIER : ℚ := 2
  TRACKING_PATIENCE_COUNT : ℕ := 10
  FALLBACK_CLASSES : List ℤ := [0, 2]
  MAX_FALLBACK_DISTANCE : ℚ := 3/10
  MAX_FALLBACK_DURATION : ℚ := 5
  CONFIDENCE_WEIGHT : ℚ := 6/10
  DISTANCE_WEIGHT : ℚ := 4/10
  PTZ_RECONNECT_DELAY : ℚ := 3
  PTZ_LOOP_INTERVAL : ℚ := 1/10
  PTZ_VELOCITY_THRESHOLD : ℚ := 1/100
  STATUS_LOG_INTERVAL : ℚ := 10
  SEARCH_LOG_INTERVAL : ℚ := 5
  SLEEP_WAKE_CHECK_COUNT : ℕ := 3
deriving Repr, DecidableEq

/-- The global `config = Config()` instance with the default values of
`config.py`. -/
def defaultCfg : Cfg := {}

/-- `handlers.Detection`: a selected detection. The Python `box` list
`[x1, y1, x2, y2]` is flattened into four fields. -/
structure Detection where
  x1 : ℚ
  y1 : ℚ
  x2 : ℚ
  y2 : ℚ
  confidence : ℚ
  score : ℚ
  class_id : ℤ
deriving Repr, DecidableEq

/-- `Detection.center`: the box center `((x1+x2)/2, (y1+y2)/2)`. -/
def Detection.center (d : Detection) : ℚ × ℚ :=
  ((d.x1 + d.x2) / 2, (d.y1 + d.y2) / 2)

/-- One raw YOLO box as consumed by `DetectionProcessor.find_best_target`
(`boxes.xyxy[i]`, `boxes.conf[i]`, `boxes.cls[i]`), with the per-`result`
nesting flattened into a single list. -/
structure RawDet where
  x1 : ℚ
  y1 : ℚ
  x2 : ℚ
  y2 : ℚ
  conf : ℚ
  cls : ℤ
deriving Repr, DecidableEq

/-- `state.TrackerState`: the mutable tracker state.  Fields that the claims
never touch (`person_detected_count`, debug timestamps, `startup_time`, …)
are kept only where a modelled method reads or writes them. -/
structure TrackerState where
  last_audio_time : ℚ := 0
  is_searching : Bool := false
  current_preset_idx : ℕ := 0
  last_scan_move_time : ℚ := 0
  target_locked : Bool := false
  was_tracking : Bool := false
  last_status_log_time : ℚ := 0
  is_sleep_mode : Bool := false
  sleep_mode_start_time : ℚ := 0
  normal_frame_count : ℕ := 0
  /-- Modelled from the spec: `lossCount` — "number of consecutive
  detection-free cycles tolerated before declaring the target lost".  The
  field is read and written by `handlers.py` but its declaration in
  `TrackerState` is not under `src/`. -/
  loss_count : ℕ := 0
  /-- Modelled from the spec: `fallbackStartedAt (nullable)` — the time the
  current fallback-tracking episode began; `handlers.py` compares it against
  the float `0.0` to test "not started", so `0` encodes null. -/
  fallback_start_time : ℚ := 0
  /-- Modelled from the spec: `lastPrimaryCenter (nullable, normalized)` —
  written by `state.update_last_target_pos` in `handlers.py`. -/
  last_target_pos : Option (ℚ × ℚ) := none
deriving Repr, DecidableEq

/-- `TrackerState()` as built at process start: all defaults. -/
def initialState : TrackerState := {}

/-- The spec's mode tags (§3): exactly one of Idle/Searching/Tracking/Sleep. -/
inductive Mode where
  | idle
  | searching
  | tracking
  | sleep
deriving Repr, DecidableEq

/-- The mode derived from the boolean flags, in the priority order the
orchestrator checks them (`main.py` checks sleep first; `StateRouter.route`
checks `target_locked` before `is_searching`). -/
def TrackerState.mode (s : TrackerState) : Mode :=
  if s.is_sleep_mode then .sleep
  else if s.target_locked then .tracking
  else if s.is_searching then .searching
  else .idle

namespace TrackerState

/-- `TrackerState.start_searching`. -/
def start_searching (s : TrackerState) (now : ℚ) : TrackerState :=
  { s with last_audio_time := now, is_searching := true, last_scan_move_time := 0 }

/-- `TrackerState.stop_searching`. -/
def stop_searching (s : TrackerState) : TrackerState :=
  { s with is_searching := false }

/-- `TrackerState.lock_target`. -/
def lock_target (s : TrackerState) : TrackerState :=
  { s with target_locked := true, is_searching := false, was_tracking := true }

/-- `TrackerState.unlock_target`. -/
def unlock_target (s : TrackerState) : TrackerState :=
  { s with target_locked := false, was_tracking := false }

/-- `TrackerState.next_preset`.  Python computes
`self.current_preset_idx % preset_count`, which raises `ZeroDivisionError`
when `preset_count == 0`; that raise is modelled as `none`. -/
def next_preset (s : TrackerState) (now : ℚ) (preset_count : ℕ) :
    Option (ℕ × TrackerState) :=
  if preset_count = 0 then none
  else some (s.current_preset_idx % preset_count,
    { s with current_preset_idx := s.current_preset_idx + 1,
             last_scan_move_time := now })

/-- `TrackerState.should_move_preset`. -/
def should_move_preset (s : TrackerState) (now scan_interval : ℚ) : Bool :=
  decide (now - s.last_scan_move_time > scan_interval)

/-- `TrackerState.is_search_timeout`. -/
def is_search_timeout (s : TrackerState) (now trigger_time : ℚ) : Bool :=
  decide (now - s.last_audio_time > trigger_time)

/-- `TrackerState.can_log_status`. -/
def can_log_status (s : TrackerState) (now log_interval : ℚ) : Bool :=
  decide (now - s.last_status_log_time ≥ log_interval)

/-- `TrackerState.mark_status_logged`. -/
def mark_status_logged (s : TrackerState) (now : ℚ) : TrackerState :=
  { s with last_status_log_time := now }

/-- `TrackerState.enter_sleep_mode`. -/
def enter_sleep_mode (s : TrackerState) (now : ℚ) : TrackerState :=
  { s with is_sleep_mode := true, sleep_mode_start_time := now,
           normal_frame_count := 0, target_locked := false,
           is_searching := false, was_tracking := false }

/-- `TrackerState.exit_sleep_mode`. -/
def exit_sleep_mode (s : TrackerState) : TrackerState :=
  { s with is_sleep_mode := false, normal_frame_count := 0 }

/-- `TrackerState.increment_normal_count` (state part; the returned count is
the updated field). -/
def increment_normal_count (s : TrackerState) : TrackerState :=
  { s with normal_frame_count := s.normal_frame_count + 1 }

/-- `TrackerState.reset_normal_count`. -/
def reset_normal_count (s : TrackerState) : TrackerState :=
  { s with normal_frame_count := 0 }

/-- Modelled from the spec: `reset_loss_count` — "lossCount reset whenever
Tracking re-acquires the primary class"; the method called by `handlers.py`
is not declared under `src/`. -/
def reset_loss_count (s : TrackerState) : TrackerState :=
  { s with loss_count := 0 }

/-- Modelled from the spec: `increment_loss_count` — "if neither primary nor
fallback detection exists this cycle: increment lossCount". -/
def increment_loss_count (s : TrackerState) : TrackerState :=
  { s with loss_count := s.loss_count + 1 }

/-- Modelled from the spec: `is_loss_patience_exceeded` — "if lossCount is
still within the configured patience budget … remain in Tracking; if the
patience budget is exceeded" the target is lost.  `lossCount ≤ patience`
stays, `lossCount > patience` is exceeded. -/
def is_loss_patience_exceeded (s : TrackerState) (patience : ℕ) : Bool :=
  decide (s.loss_count > patience)

/-- Modelled from the spec: `start_fallback_timer` — "on first fallback cycle
record `fallbackStartedAt`". -/
def start_fallback_timer (s : TrackerState) (now : ℚ) : TrackerState :=
  { s with fallback_start_time := now }

/-- Modelled from the spec: `reset_fallback_timer` — "fallbackStartedAt
cleared whenever primary class reacquired"; cleared means the null encoding
`0.0`. -/
def reset_fallback_timer (s : TrackerState) : TrackerState :=
  { s with fallback_start_time := 0 }

/-- Modelled from the spec: `is_fallback_timeout` — "if elapsed fallback
duration exceeds the configured maximum fallback duration" (§4.3); strict
`>`, matching the sibling timeout predicates in `state.py`
(`is_search_timeout`, `should_move_preset`). -/
def is_fallback_timeout (s : TrackerState) (now max_duration : ℚ) : Bool :=
  decide (now - s.fallback_start_time > max_duration)

/-- Modelled from the spec: `update_last_target_pos` — stores the normalized
last-known primary-target center (`lastPrimaryCenter`). -/
def update_last_target_pos (s : TrackerState) (pos : ℚ × ℚ) : TrackerState :=
  { s with last_target_pos := some pos }

end TrackerState

/-! ## DetectionProcessor (`handlers.py`) -/

/-- Normalized box center of a raw detection:
`((x1+x2)/2 / frame_width, (y1+y2)/2 / frame_height)`. -/
def RawDet.normCenter (r : RawDet) (w h : ℚ) : ℚ × ℚ :=
  ((r.x1 + r.x2) / 2 / w, (r.y1 + r.y2) / 2 / h)

/-- The score-and-update tail of the loop body of
`DetectionProcessor.find_best_target`: weighted score from confidence and
center distance, keeping the strictly better candidate (ties keep the first
encountered). -/
def scoreUpdate (cfg : Cfg) (w h : ℚ) (acc : Option Detection × ℚ)
    (r : RawDet) : Option Detection × ℚ :=
  let bx_cx := (r.x1 + r.x2) / 2
  let bx_cy := (r.y1 + r.y2) / 2
  let dist_x := |bx_cx - w / 2| / (w / 2)
  let dist_y := |bx_cy - h / 2| / (h / 2)
  let dist_factor := (dist_x + dist_y) / 2
  let score := r.conf * cfg.CONFIDENCE_WEIGHT +
    (1 - dist_factor) * cfg.DISTANCE_WEIGHT
  if score > acc.2 then
    (some ⟨r.x1, r.y1, r.x2, r.y2, r.conf, score, r.cls⟩, score)
  else acc

/-- One iteration of the loop in `DetectionProcessor.find_best_target`:
skip non-target classes, apply the fallback distance filter when a last
target center is supplied, then score.  The Python `sqrt(S) > MAX` test is
embedded as `S > MAX ^ 2` (see file header). -/
def considerDet (cfg : Cfg) (w h : ℚ) (target_classes : List ℤ) :
    Option (ℚ × ℚ) → (Option Detection × ℚ) → RawDet → Option Detection × ℚ
  | some lc, acc, r =>
    if r.cls ∉ target_classes then acc
    else if r.cls ≠ 1 ∧
        ((r.normCenter w h).1 - lc.1) ^ 2 + ((r.normCenter w h).2 - lc.2) ^ 2 >
          cfg.MAX_FALLBACK_DISTANCE ^ 2 then
      acc
    else scoreUpdate cfg w h acc r
  | none, acc, r =>
    if r.cls ∉ target_classes then acc
    else scoreUpdate cfg w h acc r

/-- `DetectionProcessor.find_best_target` over the flattened detection list.
`best_score` starts at `-1.0`; the best candidate (or `none`) is returned. -/
def findBestTarget (cfg : Cfg) (dets : List RawDet) (w h : ℚ)
    (target_classes : List ℤ) (last_target_center : Option (ℚ × ℚ)) :
    Option Detection :=
  (dets.foldl (considerDet cfg w h target_classes last_target_center)
    (none, -1)).1

/-- Unrestricted best-score selection: the claim's description of
`find_best_target` with the fallback distance filter removed (used to state
the refinement in claim C5). -/
def findBestTargetUnrestricted (cfg : Cfg) (dets : List RawDet) (w h : ℚ)
    (target_classes : List ℤ) : Option Detection :=
  (dets.foldl
    (fun acc r => if r.cls ∉ target_classes then acc else scoreUpdate cfg w h acc r)
    (none, -1)).1

/-- The fallback selection pass of `JeonghooTracker.run` (`main.py`): a call
to `find_best_target` with `target_classes=config.FALLBACK_CLASSES` and
`last_target_center` left at its `None` default. -/
def fallbackPass (cfg : Cfg) (dets : List RawDet) (w h : ℚ) : Option Detection :=
  findBestTarget cfg dets w h cfg.FALLBACK_CLASSES none

/-! ## VelocityCalculator (`handlers.py`) -/

/-- `math.copysign x s`: the magnitude of `x` with the sign of `s`
(`s = 0` counts as positive, matching Python's `+0.0`). -/
def copysign (x s : ℚ) : ℚ :=
  if s < 0 then -|x| else |x|

/-- `VelocityCalculator.calculate`.  `pw` stands for the float powering
`fun x => x ** config.VELOCITY_EXPONENT` applied to the nonnegative base
`abs (d * multiplier)` (see file header). -/
def VelocityCalculator.calculate (cfg : Cfg) (pw : ℚ → ℚ)
    (target_x target_y w h : ℚ) : ℚ × ℚ :=
  let cx := w / 2
  let cy := h / 2
  let dx := (target_x - cx) / w
  let dy := (target_y - cy) / h
  let pan_val :=
    if |dx| > cfg.PAN_DEAD_ZONE then
      copysign (min (pw |dx * cfg.PAN_VELOCITY_MULTIPLIER|) 1) dx
    else 0
  let tilt_val :=
    if |dy| > cfg.TILT_DEAD_ZONE then
      copysign (min (pw |dy * cfg.TILT_VELOCITY_MULTIPLIER|) 1) (-dy)
    else 0
  (pan_val, tilt_val)

/-! ## PTZManager (`ptz_manager.py`) -/

/-- The shared desired-command cell of `PTZManager` (`cmd_pan`, `cmd_tilt`),
the only data crossing the two execution contexts. -/
structure PtzCmd where
  cmd_pan : ℚ := 0
  cmd_tilt : ℚ := 0
deriving Repr, DecidableEq

/-- `PTZManager.set_velocity`: clamp both axes into `[-1, 1]` and store. -/
def PtzCmd.set_velocity (_c : PtzCmd) (pan tilt : ℚ) : PtzCmd :=
  { cmd_pan := max (-1) (min 1 pan), cmd_tilt := max (-1) (min 1 tilt) }

/-- `PTZManager.stop` is `set_velocity(0, 0)`. -/
def PtzCmd.stop (c : PtzCmd) : PtzCmd :=
  c.set_velocity 0 0

/-- `PTZManager.goto_preset`'s effect on the desired-command cell:
unconnected or failing calls return `False` and leave the cell unchanged;
a successful `GotoPreset` zeroes both axes.  `connected` models
`self.ptz and self.profile`; `ok` models the `GotoPreset` call outcome. -/
def PtzCmd.goto_preset (c : PtzCmd) (connected ok : Bool) : PtzCmd × Bool :=
  if !connected then (c, false)
  else if ok then ({ cmd_pan := 0, cmd_tilt := 0 }, true)
  else (c, false)

/-- A hardware command dispatched by `_command_loop`: `Stop` or
`ContinuousMove` with a velocity. -/
inductive Command where
  | stop
  | move (pan tilt : ℚ)
deriving Repr, DecidableEq

/-- The per-tick dispatch decision of `PTZManager._command_loop` with an
established link: `pan_changed`/`tilt_changed` compare each axis against
`PTZ_VELOCITY_THRESHOLD`; `stopped` requires `current == (0,0)` and
`last_pan != 0`.  Returns the command to dispatch, or `none` when the
dispatch is suppressed. -/
def dispatchDecision (cfg : Cfg) (last cur : ℚ × ℚ) : Option Command :=
  if |cur.1 - last.1| > cfg.PTZ_VELOCITY_THRESHOLD ∨
      |cur.2 - last.2| > cfg.PTZ_VELOCITY_THRESHOLD ∨
      (cur.1 = 0 ∧ cur.2 = 0 ∧ last.1 ≠ 0) then
    some (if cur.1 = 0 ∧ cur.2 = 0 then .stop else .move cur.1 cur.2)
  else none

/-- Ticks of `_command_loop` with an established link and successful
dispatches, over a list of successive desired commands: returns the
dispatch decision of each tick and the final last-dispatched pair
(`last_pan`, `last_tilt`), which are updated only when a dispatch happens. -/
def ptzTrace (cfg : Cfg) : (ℚ × ℚ) → List (ℚ × ℚ) → List (Option Command) × (ℚ × ℚ)
  | last, [] => ([], last)
  | last, cur :: rest =>
    match dispatchDecision cfg last cur with
    | some c =>
        let r := ptzTrace cfg cur rest
        (some c :: r.1, r.2)
    | none =>
        let r := ptzTrace cfg last rest
        (none :: r.1, r.2)

/-- Observable events of one `_command_loop` tick. -/
inductive LoopEvent where
  | linkConnected
  | connectFailed
  | slept (d : ℚ)
  | dispatched (c : Command)
  | dispatchFailed
  | linkDropped
deriving Repr, DecidableEq

/-- Result of one `_command_loop` tick: link status after the tick, the
last-dispatched pair after the tick, and the events in order. -/
structure TickResult where
  connectedAfter : Bool
  lastAfter : ℚ × ℚ
  events : List LoopEvent
deriving Repr, DecidableEq

/-- The fallible hardware dispatch (`self.ptz.Stop` / `ContinuousMove`):
`ok = false` models a raised exception. -/
def attemptDispatch (ok : Bool) (c : Command) : Except String Command :=
  if ok then .ok c else .error "PTZ command send failed"

/-- The three outcomes of `PTZManager._connect`: success; the
empty-profiles failure (`if not profiles: return False`), which logs and
returns immediately with NO sleep; and a raised exception, whose handler
clears the handles, sleeps `PTZ_RECONNECT_DELAY`, and returns `False`. -/
inductive ConnectOutcome where
  | ok
  | noProfiles
  | exn
deriving Repr, DecidableEq

/-- One tick of `PTZManager._command_loop`.  `connectedBefore` models
`self.ptz and self.profile`; `co` the outcome of `_connect`; `dispatchOk`
the outcome of the hardware call.  The Python `try/except` around the
dispatch is the `match` on `attemptDispatch`: a failure is logged, the
link handle is set to `None` (`linkDropped`), and the tick completes
normally.  Of `_connect`'s two failure paths only the `except` handler
sleeps `PTZ_RECONNECT_DELAY`; the empty-profiles `return False` emits no
sleep, and after either failure the link stays unestablished (after the
empty-profiles path `self.profile` is still `None`).  All three connect
outcomes `continue` before the trailing `time.sleep(PTZ_LOOP_INTERVAL)`. -/
def commandLoopTick (cfg : Cfg) (connectedBefore : Bool)
    (co : ConnectOutcome) (dispatchOk : Bool)
    (last cur : ℚ × ℚ) : Except String TickResult :=
  if !connectedBefore then
    match co with
    | .ok => .ok ⟨true, last, [.linkConnected]⟩
    | .noProfiles => .ok ⟨false, last, [.connectFailed]⟩
    | .exn => .ok ⟨false, last, [.connectFailed, .slept cfg.PTZ_RECONNECT_DELAY]⟩
  else
    match dispatchDecision cfg last cur with
    | some c =>
        match attemptDispatch dispatchOk c with
        | .ok c' =>
            .ok ⟨true, cur, [.dispatched c', .slept cfg.PTZ_LOOP_INTERVAL]⟩
        | .error _ =>
            .ok ⟨false, last,
              [.dispatchFailed, .linkDropped, .slept cfg.PTZ_LOOP_INTERVAL]⟩
    | none => .ok ⟨true, last, [.slept cfg.PTZ_LOOP_INTERVAL]⟩

/-! ## State handlers and router (`handlers.py`) -/

/-- A PTZ request issued by a handler: `ptz.stop()`,
`ptz.set_velocity(pan, tilt)` or `ptz.goto_preset(token)`. -/
inductive PtzAction where
  | stop
  | setVelocity (pan tilt : ℚ)
  | gotoPreset (token : String)
deriving Repr, DecidableEq

/-- The common tail of `TrackingHandler.handle` when a detection is kept:
`state.lock_target()`, velocity from the detection center, and
`ptz.set_velocity`. -/
def trackAndDispatch (cfg : Cfg) (pw : ℚ → ℚ) (w h : ℚ) (d : Detection)
    (s : TrackerState) : TrackerState × List PtzAction :=
  let s₁ := s.lock_target
  let v := VelocityCalculator.calculate cfg pw d.center.1 d.center.2 w h
  (s₁, [.setVelocity v.1 v.2])

/-- `TrackingHandler.handle`.  With a detection: recover the loss count,
then branch on the class — class 1 (primary) resets the fallback timer and
stores the normalized center; other classes run the fallback timer and, on
timeout, stop, unlock, and clear the timer (early return).  Without a
detection: grace period, `ptz.stop()` only. -/
def TrackingHandler.handle (cfg : Cfg) (pw : ℚ → ℚ) (now w h : ℚ) :
    Option Detection → TrackerState → TrackerState × List PtzAction
  | some d, s =>
    let s₁ := if s.loss_count > 0 then s.reset_loss_count else s
    if d.class_id = 1 then
      let s₂ := (s₁.reset_fallback_timer).update_last_target_pos
        (d.center.1 / w, d.center.2 / h)
      trackAndDispatch cfg pw w h d s₂
    else
      let s₂ := if s₁.fallback_start_time = 0 then s₁.start_fallback_timer now else s₁
      if s₂.is_fallback_timeout now cfg.MAX_FALLBACK_DURATION then
        ((s₂.unlock_target).reset_fallback_timer, [.stop])
      else
        trackAndDispatch cfg pw w h d s₂
  | none, s => (s, [.stop])

/-- `LostHandler.handle`: stop the camera, unlock, reset the loss count. -/
def LostHandler.handle (s : TrackerState) : TrackerState × List PtzAction :=
  ((s.unlock_target).reset_loss_count, [.stop])

/-- `SearchingHandler.handle`.  Clears `target_locked` and the loss count;
on search timeout stops searching and the camera; otherwise moves to the
next preset when due (`none` models the exceptions `next_preset` or the
preset-list indexing can raise), else only logs at the configured cadence. -/
def SearchingHandler.handle (cfg : Cfg) (now : ℚ) (s : TrackerState) :
    Option (TrackerState × List PtzAction) :=
  let s₁ := ({ s with target_locked := false }).reset_loss_count
  if s₁.is_search_timeout now cfg.AUDIO_TRIGGER_TIME then
    some (s₁.stop_searching, [.stop])
  else if s₁.should_move_preset now cfg.SCAN_INTERVAL then
    match s₁.next_preset now cfg.SEARCH_PRESETS.length with
    | none => none
    | some (idx, s₂) =>
      match cfg.SEARCH_PRESETS[idx]? with
      | none => none
      | some tok => some (s₂, [.gotoPreset tok])
  else
    if s₁.can_log_status now cfg.SEARCH_LOG_INTERVAL then
      some (s₁.mark_status_logged now, [])
    else some (s₁, [])

/-- `IdleHandler.handle`: clear `target_locked` and the loss count, stop the
camera, log at the configured cadence. -/
def IdleHandler.handle (cfg : Cfg) (now : ℚ) (s : TrackerState) :
    TrackerState × List PtzAction :=
  let s₁ := ({ s with target_locked := false }).reset_loss_count
  if s₁.can_log_status now cfg.STATUS_LOG_INTERVAL then
    (s₁.mark_status_logged now, [.stop])
  else (s₁, [.stop])

/-- `StateRouter.route`: detection present always goes to tracking; with no
detection a locked state increments the loss count and goes to the lost
handler once the patience budget is exceeded, else stays in the tracking
handler's grace branch; otherwise searching or idle.  `none` models an
exception escaping the routed handler. -/
def StateRouter.route (cfg : Cfg) (pw : ℚ → ℚ) (now w h : ℚ)
    (detection : Option Detection) (s : TrackerState) :
    Option (TrackerState × List PtzAction) :=
  match detection with
  | some d => some (TrackingHandler.handle cfg pw now w h (some d) s)
  | none =>
    if s.target_locked then
      let s₁ := s.increment_loss_count
      if s₁.is_loss_patience_exceeded cfg.TRACKING_PATIENCE_COUNT then
        some (LostHandler.handle s₁)
      else
        some (TrackingHandler.handle cfg pw now w h none s₁)
    else if s.is_searching then
      SearchingHandler.handle cfg now s
    else
      some (IdleHandler.handle cfg now s)

/-- `k` successive detection-free evaluation cycles through
`StateRouter.route`, collecting each cycle's PTZ actions in order
(`none` when some cycle raises). -/
def cyclesNone (cfg : Cfg) (pw : ℚ → ℚ) (now w h : ℚ) :
    ℕ → TrackerState → Option (TrackerState × List (List PtzAction))
  | 0, s => some (s, [])
  | k + 1, s =>
    match cyclesNone cfg pw now w h k s with
    | none => none
    | some (s', l) =>
      match StateRouter.route cfg pw now w h none s' with
      | none => none
      | some (s'', as) => some (s'', l ++ [as])

/-! ## Sleep mode (`main.py`) -/

/-- Sleep-mode entry in `JeonghooTracker.run`: on a privacy-classified frame
the loop runs `state.enter_sleep_mode()` then `ptz.stop()`. -/
def privacyEnter (now : ℚ) (s : TrackerState) : TrackerState × List PtzAction :=
  (s.enter_sleep_mode now, [.stop])

/-- One sleep-mode check of `JeonghooTracker.run` (the branch guarded by
`state.is_sleep_mode`), at the instant a frame has been read and classified:
a normal frame increments the streak and exits sleep once it reaches
`SLEEP_WAKE_CHECK_COUNT`; any other frame resets the streak.  When the
state is not asleep the branch is not taken. -/
def sleepCycle (cfg : Cfg) (isNormal : Bool) (s : TrackerState) : TrackerState :=
  if !s.is_sleep_mode then s
  else if isNormal then
    let s₁ := s.increment_normal_count
    if s₁.normal_frame_count ≥ cfg.SLEEP_WAKE_CHECK_COUNT then
      s₁.exit_sleep_mode
    else s₁
  else s.reset_normal_count

/-- Iterated sleep checks over a list of frame classifications. -/
def sleepRun (cfg : Cfg) : List Bool → TrackerState → TrackerState
  | [], s => s
  | b :: rest, s => sleepRun cfg rest (sleepCycle cfg b s)

/-- The result of call number `k` (counting from 0) to
`TrackerState.next_preset` after performing all earlier calls, starting from
the given state (`none` when any call raises). -/
def presetIter (now : ℚ) (preset_count : ℕ) : ℕ → TrackerState → Option (ℕ × TrackerState)
  | 0, s => s.next_preset now preset_count
  | k + 1, s =>
    match s.next_preset now preset_count with
    | none => none
    | some (_, s') => presetIter now preset_count k s'

/-- The command-cell invariant of the spec's data model: both axes of the
desired command lie in `[-1, 1]`. -/
def PtzCmd.Clamped (c : PtzCmd) : Prop :=
  -1 ≤ c.cmd_pan ∧ c.cmd_pan ≤ 1 ∧ -1 ≤ c.cmd_tilt ∧ c.cmd_tilt ≤ 1

/-! ## Helper lemmas -/

/-- One `find_best_target` loop iteration preserves the fallback distance
bound on the accumulator's best candidate. -/
theorem considerDet_distance_bound (cfg : Cfg) (w h : ℚ) (classes : List ℤ)
    (c : ℚ × ℚ) (acc : Option Detection × ℚ) (r : RawDet)
    (hacc : ∀ d, acc.1 = some d → d.class_id ≠ 1 →
      (d.center.1 / w - c.1) ^ 2 + (d.center.2 / h - c.2) ^ 2 ≤
        cfg.MAX_FALLBACK_DISTANCE ^ 2) :
    ∀ d, (considerDet cfg w h classes (some c) acc r).1 = some d →
      d.class_id ≠ 1 →
      (d.center.1 / w - c.1) ^ 2 + (d.center.2 / h - c.2) ^ 2 ≤
        cfg.MAX_FALLBACK_DISTANCE ^ 2 := by
  intro d hd hcls
  rw [considerDet] at hd
  split at hd
  · exact hacc d hd hcls
  · split at hd
    · exact hacc d hd hcls
    · rename_i hguard
      simp only [scoreUpdate] at hd
      split at hd
      · simp only [Option.some.injEq] at hd
        subst hd
        simp only [Detection.center] at hcls ⊢
        rw [not_and_or] at hguard
        rcases hguard with hcl | hdist
        · exact absurd hcls (by simpa using hcl)
        · have := not_lt.mp hdist
          simpa [RawDet.normCenter] using this
      · exact hacc d hd hcls

/-- Folding `find_best_target`'s loop preserves the fallback distance bound. -/
theorem foldl_distance_bound (cfg : Cfg) (w h : ℚ) (classes : List ℤ)
    (c : ℚ × ℚ) (dets : List RawDet) :
    ∀ acc, (∀ d, acc.1 = some d → d.class_id ≠ 1 →
      (d.center.1 / w - c.1) ^ 2 + (d.center.2 / h - c.2) ^ 2 ≤
        cfg.MAX_FALLBACK_DISTANCE ^ 2) →
    ∀ d, (dets.foldl (considerDet cfg w h classes (some c)) acc).1 = some d →
      d.class_id ≠ 1 →
      (d.center.1 / w - c.1) ^ 2 + (d.center.2 / h - c.2) ^ 2 ≤
        cfg.MAX_FALLBACK_DISTANCE ^ 2 := by
  induction dets with
  | nil => intro acc hacc; simpa using hacc
  | cons r rest ih =>
      intro acc hacc
      simpa using ih (considerDet cfg w h classes (some c) acc r)
        (considerDet_distance_bound cfg w h classes c acc r hacc)

/-! ## Claim theorems -/

/-- C9: for every detection list, frame dimensions, allowed-class set and
supplied last-known primary center, `find_best_target` never returns a
fallback-class (non-primary) detection whose Euclidean distance in
normalized coordinates from the supplied center exceeds
`MAX_FALLBACK_DISTANCE` (stated on squared distances, which is equivalent
for the nonnegative configured radius). -/
theorem fallback_distance_bound (cfg : Cfg) (dets : List RawDet) (w h : ℚ)
    (classes : List ℤ) (c : ℚ × ℚ) (d : Detection)
    (hfind : findBestTarget cfg dets w h classes (some c) = some d)
    (hcls : d.class_id ≠ 1) :
    (d.center.1 / w - c.1) ^ 2 + (d.center.2 / h - c.2) ^ 2 ≤
      cfg.MAX_FALLBACK_DISTANCE ^ 2 := by
  refine foldl_distance_bound cfg w h classes c dets (none, -1) ?_ d ?_ hcls
  · intro d hd; simp at hd
  · simpa [findBestTarget] using hfind

/-- Witness for C9 at a concrete input: a fallback-class (class 0) detection
is selected and its normalized squared distance from the supplied center is
within the configured radius. -/
theorem fallback_distance_bound_witness :
    findBestTarget defaultCfg [⟨4, 4, 6, 6, 1/2, 0⟩] 10 10 [0, 2]
        (some (1/2, 1/2)) = some ⟨4, 4, 6, 6, 1/2, 7/10, 0⟩ ∧
    (((⟨4, 4, 6, 6, 1/2, 7/10, 0⟩ : Detection).center.1 / 10 - (1/2 : ℚ)) ^ 2 +
      ((⟨4, 4, 6, 6, 1/2, 7/10, 0⟩ : Detection).center.2 / 10 - (1/2 : ℚ)) ^ 2 ≤
      defaultCfg.MAX_FALLBACK_DISTANCE ^ 2) :=
  ⟨by norm_num [findBestTarget, considerDet, scoreUpdate, RawDet.normCenter,
      defaultCfg],
    fallback_distance_bound defaultCfg [⟨4, 4, 6, 6, 1/2, 0⟩] 10 10 [0, 2]
      (1/2, 1/2) _
      (by norm_num [findBestTarget, considerDet, scoreUpdate,
        RawDet.normCenter, defaultCfg])
      (by decide)⟩

/-- C5: the orchestrator's fallback selection pass (`main.py`) calls
`find_best_target` with `last_target_center` left as `None`, so its result
always equals unrestricted best-score selection over the fallback classes:
the distance-filter branch is unreachable on that call path. -/
theorem fallback_pass_distance_filter_inactive (cfg : Cfg)
    (dets : List RawDet) (w h : ℚ) :
    fallbackPass cfg dets w h =
      findBestTargetUnrestricted cfg dets w h cfg.FALLBACK_CLASSES := by
  unfold fallbackPass findBestTarget findBestTargetUnrestricted
  have hfun : considerDet cfg w h cfg.FALLBACK_CLASSES none =
      fun acc r => if r.cls ∉ cfg.FALLBACK_CLASSES then acc
        else scoreUpdate cfg w h acc r := by
    funext acc r
    rw [considerDet]
  rw [hfun]

/-- C10: every velocity command is within `[-1, 1]` on both axes:
`VelocityCalculator.calculate` produces clamped values (given only that the
powering function is nonnegative on nonnegative inputs, as the float power
`x ** 1.3` is), and the desired-command cell invariant is established by
`set_velocity` for arbitrary arguments and preserved by `stop` and
`goto_preset`. -/
theorem velocity_command_clamped (cfg : Cfg) (pw : ℚ → ℚ)
    (hpw : ∀ x, 0 ≤ x → 0 ≤ pw x) (tx ty w h : ℚ) (c : PtzCmd) (p t : ℚ)
    (hc : c.Clamped) :
    (-1 ≤ (VelocityCalculator.calculate cfg pw tx ty w h).1 ∧
      (VelocityCalculator.calculate cfg pw tx ty w h).1 ≤ 1 ∧
      -1 ≤ (VelocityCalculator.calculate cfg pw tx ty w h).2 ∧
      (VelocityCalculator.calculate cfg pw tx ty w h).2 ≤ 1) ∧
    (c.set_velocity p t).Clamped ∧ c.stop.Clamped ∧
    (∀ conn ok, ((c.goto_preset conn ok).1).Clamped) := by
  have hcs : ∀ m s : ℚ, 0 ≤ m → m ≤ 1 → -1 ≤ copysign m s ∧ copysign m s ≤ 1 := by
    intro m s h0 h1
    unfold copysign
    rw [abs_of_nonneg h0]
    split <;> constructor <;> linarith
  have hmin : ∀ a : ℚ, 0 ≤ a → 0 ≤ min a 1 ∧ min a 1 ≤ 1 := by
    intro a ha
    exact ⟨le_min ha zero_le_one, min_le_right a 1⟩
  have hsv : ∀ p' t' : ℚ, (c.set_velocity p' t').Clamped := by
    intro p' t'
    refine ⟨le_max_left _ _, max_le (by norm_num) (min_le_left _ _),
      le_max_left _ _, max_le (by norm_num) (min_le_left _ _)⟩
  refine ⟨?_, hsv p t, hsv 0 0, ?_⟩
  · unfold VelocityCalculator.calculate
    refine ⟨?_, ?_, ?_, ?_⟩ <;>
      { simp only
        split
        · first
          | exact (hcs _ _ (hmin _ (hpw _ (abs_nonneg _))).1
              (hmin _ (hpw _ (abs_nonneg _))).2).1
          | exact (hcs _ _ (hmin _ (hpw _ (abs_nonneg _))).1
              (hmin _ (hpw _ (abs_nonneg _))).2).2
        · norm_num }
  · intro conn ok
    unfold PtzCmd.goto_preset
    split
    · exact hc
    · split
      · exact ⟨by norm_num, by norm_num, by norm_num, by norm_num⟩
      · exact hc

/-- Witness for C10 at concrete inputs: identity as the powering function,
a concrete target far off-center, and the zero cell. -/
theorem velocity_command_clamped_witness :
    (-1 ≤ (VelocityCalculator.calculate defaultCfg (fun x => x) 9 9 10 10).1 ∧
      (VelocityCalculator.calculate defaultCfg (fun x => x) 9 9 10 10).1 ≤ 1 ∧
      -1 ≤ (VelocityCalculator.calculate defaultCfg (fun x => x) 9 9 10 10).2 ∧
      (VelocityCalculator.calculate defaultCfg (fun x => x) 9 9 10 10).2 ≤ 1) ∧
    (PtzCmd.set_velocity ⟨0, 0⟩ (5/2) (-7)).Clamped ∧
    (PtzCmd.stop ⟨0, 0⟩).Clamped ∧
    (∀ conn ok, ((PtzCmd.goto_preset ⟨0, 0⟩ conn ok).1).Clamped) :=
  velocity_command_clamped defaultCfg (fun x => x) (fun _ hx => hx) 9 9 10 10
    ⟨0, 0⟩ (5/2) (-7) ⟨by norm_num, by norm_num, by norm_num, by norm_num⟩

/-- C4 counterexample: in a reachable run of the command loop (link
established, all dispatches succeeding, starting from `last = (0, 0)`), the
desired sequence `(1/2, 1/200), (0, 1/200), (0, 0)` leaves the last
dispatched command at `(0, 1/200)` — nonzero on the tilt axis — and the
third tick, whose desired command is exactly `(0, 0)` with both axes within
`PTZ_VELOCITY_THRESHOLD = 1/100` of the last dispatch, dispatches nothing:
the `stopped` test in `_command_loop` only inspects `last_pan != 0`, so no
stop command is sent, contradicting the claim that a stop is always
dispatched when the last dispatched command was nonzero on either axis. -/
theorem stop_suppression_counterexample :
    ptzTrace defaultCfg (0, 0) [(1/2, 1/200), (0, 1/200), (0, 0)] =
      ([some (.move (1/2) (1/200)), some (.move 0 (1/200)), none],
        (0, 1/200)) ∧
    (1/200 : ℚ) ≠ 0 := by
  constructor
  · norm_num [ptzTrace, dispatchDecision, defaultCfg, abs_le, lt_abs]
  · norm_num

/-- C4 (amended): on a tick with an established link, when both axes of the
desired command are within `PTZ_VELOCITY_THRESHOLD` of the last dispatched
command, the dispatch is suppressed — except that a stop command is still
dispatched when the desired command is exactly `(0, 0)` and the last
dispatched *pan* was nonzero (a nonzero last tilt alone does not force the
stop). -/
theorem dispatch_suppression_amended (cfg : Cfg) (last cur : ℚ × ℚ)
    (h1 : |cur.1 - last.1| ≤ cfg.PTZ_VELOCITY_THRESHOLD)
    (h2 : |cur.2 - last.2| ≤ cfg.PTZ_VELOCITY_THRESHOLD) :
    dispatchDecision cfg last cur =
      if cur.1 = 0 ∧ cur.2 = 0 ∧ last.1 ≠ 0 then some .stop else none := by
  have hp : ¬(|cur.1 - last.1| > cfg.PTZ_VELOCITY_THRESHOLD) := not_lt.mpr h1
  have ht : ¬(|cur.2 - last.2| > cfg.PTZ_VELOCITY_THRESHOLD) := not_lt.mpr h2
  unfold dispatchDecision
  by_cases hs : cur.1 = 0 ∧ cur.2 = 0 ∧ last.1 ≠ 0
  · rw [if_pos (Or.inr (Or.inr hs)), if_pos hs, if_pos ⟨hs.1, hs.2.1⟩]
  · rw [if_neg (by tauto), if_neg hs]

/-- Witness for C4's amended theorem: last dispatch `(1/200, 0)`, desired
`(0, 0)`, both axes within the default threshold `1/100`; a stop is
dispatched because the last pan was nonzero. -/
theorem dispatch_suppression_amended_witness :
    dispatchDecision defaultCfg (1/200, 0) (0, 0) =
      if (0 : ℚ) = 0 ∧ (0 : ℚ) = 0 ∧ (1/200 : ℚ) ≠ 0 then some .stop
      else none :=
  dispatch_suppression_amended defaultCfg (1/200, 0) (0, 0)
    (by norm_num [defaultCfg, abs_le]) (by norm_num [defaultCfg, abs_le])

/-- C7 counterexample: a reconnection that fails because `GetProfiles`
returns no profiles (`if not profiles: return False`) logs and returns
immediately — the tick emits no `slept` event — so the next loop iteration
retries `_connect` without waiting `PTZ_RECONNECT_DELAY`; the fixed delay
lives only in the exception handler.  This refutes the claim that every
failed reconnection waits `PTZ_RECONNECT_DELAY` before the next attempt. -/
theorem reconnect_no_delay_counterexample :
    commandLoopTick defaultCfg false .noProfiles true (0, 0) (0, 0) =
      .ok ⟨false, (0, 0), [.connectFailed]⟩ ∧
    (∀ d : ℚ, LoopEvent.slept d ∉ [LoopEvent.connectFailed]) :=
  ⟨rfl, by simp⟩

/-- C7 (amended): hardware dispatch failures inside the command loop are
caught and converted into a reconnect request.  (1) No tick ever
propagates an error out of the loop; (2) a tick whose dispatch fails
drops the link handle and leaves the last-dispatched pair unchanged — no
immediate retry, so the next tick reconnects; (3) a disconnected tick
never dispatches; (4) a reconnection that fails with a raised exception
waits exactly `PTZ_RECONNECT_DELAY` before the next attempt; (5) a
reconnection that fails for lack of media profiles returns immediately
with no delay. -/
theorem dispatch_failure_reconnect (cfg : Cfg) (last cur : ℚ × ℚ) :
    (∀ (conn : Bool) (co : ConnectOutcome) (dok : Bool),
      (commandLoopTick cfg conn co dok last cur).isOk = true) ∧
    (∀ co c, dispatchDecision cfg last cur = some c →
      commandLoopTick cfg true co false last cur =
        .ok ⟨false, last,
          [.dispatchFailed, .linkDropped, .slept cfg.PTZ_LOOP_INTERVAL]⟩) ∧
    (∀ co dok r, commandLoopTick cfg false co dok last cur = .ok r →
      ∀ c, LoopEvent.dispatched c ∉ r.events) ∧
    (∀ dok, commandLoopTick cfg false .exn dok last cur =
      .ok ⟨false, last,
        [.connectFailed, .slept cfg.PTZ_RECONNECT_DELAY]⟩) ∧
    (∀ dok, commandLoopTick cfg false .noProfiles dok last cur =
      .ok ⟨false, last, [.connectFailed]⟩) := by
  refine ⟨?_, ?_, ?_, ?_, ?_⟩
  · intro conn co dok
    unfold commandLoopTick attemptDispatch
    cases conn <;> cases co <;> cases dok <;>
      first
        | rfl
        | (cases dispatchDecision cfg last cur <;> rfl)
  · intro co c hc
    unfold commandLoopTick
    rw [hc]
    rfl
  · intro co dok r hr c
    unfold commandLoopTick at hr
    cases co <;> simp_all <;> simp [← hr]
  · intro dok
    rfl
  · intro dok
    rfl

/-- Witness for C7's amended theorem at concrete inputs: last `(0, 0)`,
desired `(1, 0)` (a dispatch is due since `1 > 1/100`); a failing dispatch
drops the link, an exception-failing reconnect waits the default 3-second
delay, and a no-profiles reconnect failure returns with no delay. -/
theorem dispatch_failure_reconnect_witness :
    commandLoopTick defaultCfg true .ok false (0, 0) (1, 0) =
      .ok ⟨false, (0, 0),
        [.dispatchFailed, .linkDropped, .slept defaultCfg.PTZ_LOOP_INTERVAL]⟩ ∧
    commandLoopTick defaultCfg false .exn true (0, 0) (1, 0) =
      .ok ⟨false, (0, 0),
        [.connectFailed, .slept defaultCfg.PTZ_RECONNECT_DELAY]⟩ ∧
    commandLoopTick defaultCfg false .noProfiles true (0, 0) (1, 0) =
      .ok ⟨false, (0, 0), [.connectFailed]⟩ :=
  ⟨(dispatch_failure_reconnect defaultCfg (0, 0) (1, 0)).2.1 .ok (.move 1 0)
      (by norm_num [dispatchDecision, defaultCfg, lt_abs]),
    (dispatch_failure_reconnect defaultCfg (0, 0) (1, 0)).2.2.2.1 true,
    (dispatch_failure_reconnect defaultCfg (0, 0) (1, 0)).2.2.2.2 true⟩

/-- A preset move issued by `SearchingHandler.handle` requires the scan
interval to have elapsed, and stamps the move time with `now`. -/
theorem searching_move_gap (cfg : Cfg) (s : TrackerState) (now : ℚ)
    (r : TrackerState × List PtzAction)
    (hr : SearchingHandler.handle cfg now s = some r)
    (tok : String) (hmem : PtzAction.gotoPreset tok ∈ r.2) :
    now - s.last_scan_move_time > cfg.SCAN_INTERVAL ∧
      r.1.last_scan_move_time = now := by
  simp only [SearchingHandler.handle] at hr
  split at hr
  · simp only [Option.some.injEq] at hr
    subst hr
    simp at hmem
  · split at hr
    · rename_i hmove
      split at hr
      · exact absurd hr (by simp)
      · rename_i idx s₂ hnp
        split at hr
        · exact absurd hr (by simp)
        · rename_i tok' hget
          simp only [Option.some.injEq] at hr
          subst hr
          refine ⟨?_, ?_⟩
          · simpa [TrackerState.should_move_preset,
              TrackerState.reset_loss_count] using hmove
          · unfold TrackerState.next_preset at hnp
            split at hnp
            · exact absurd hnp (by simp)
            · simp only [Option.some.injEq, Prod.mk.injEq] at hnp
              rw [← hnp.2]
    · split at hr <;>
      · simp only [Option.some.injEq] at hr
        subst hr
        simp at hmem

/-- Iterating `next_preset` from any state: call number `k` (0-indexed)
returns `(start index + k) mod preset_count`. -/
theorem presetIter_mod (now : ℚ) (count : ℕ) (hc : 0 < count) :
    ∀ (k : ℕ) (s : TrackerState),
      (presetIter now count k s).map Prod.fst =
        some ((s.current_preset_idx + k) % count) := by
  intro k
  induction k with
  | zero =>
      intro s
      simp [presetIter, TrackerState.next_preset, Nat.pos_iff_ne_zero.mp hc]
  | succ k ih =>
      intro s
      rw [presetIter, TrackerState.next_preset, if_neg (Nat.pos_iff_ne_zero.mp hc),
        show s.current_preset_idx + (k + 1) = s.current_preset_idx + 1 + k from by
          omega]
      exact ih { s with
        current_preset_idx := s.current_preset_idx + 1,
        last_scan_move_time := now }

/-- C6: Searching mode issues at most one preset-move request per
`SCAN_INTERVAL`: a `gotoPreset` request requires the interval to have
elapsed since the previous move and stamps the move time, so two successive
moves are more than `SCAN_INTERVAL` apart.  The issued index wraps modulo
the preset-list length: for a 3-entry list the `k`-th call to
`TrackerState.next_preset` from process start returns `k % 3`, and every
returned index is `< preset_count`. -/
theorem searching_preset_schedule (cfg : Cfg) :
    (∀ (s : TrackerState) (now : ℚ) (r : TrackerState × List PtzAction),
      SearchingHandler.handle cfg now s = some r →
      ∀ tok, PtzAction.gotoPreset tok ∈ r.2 →
        now - s.last_scan_move_time > cfg.SCAN_INTERVAL ∧
        r.1.last_scan_move_time = now) ∧
    (∀ (s : TrackerState) (now₁ now₂ : ℚ)
      (r₁ r₂ : TrackerState × List PtzAction) (tok₁ tok₂ : String),
      SearchingHandler.handle cfg now₁ s = some r₁ →
      PtzAction.gotoPreset tok₁ ∈ r₁.2 →
      SearchingHandler.handle cfg now₂ r₁.1 = some r₂ →
      PtzAction.gotoPreset tok₂ ∈ r₂.2 →
      now₂ - now₁ > cfg.SCAN_INTERVAL) ∧
    (∀ (now : ℚ) (k : ℕ),
      (presetIter now 3 k initialState).map Prod.fst = some (k % 3)) ∧
    (∀ (s : TrackerState) (now : ℚ) (count idx : ℕ) (s' : TrackerState),
      0 < count → s.next_preset now count = some (idx, s') → idx < count) := by
  refine ⟨searching_move_gap cfg, ?_, ?_, ?_⟩
  · intro s now₁ now₂ r₁ r₂ tok₁ tok₂ h₁ hm₁ h₂ hm₂
    have g₁ := searching_move_gap cfg s now₁ r₁ h₁ tok₁ hm₁
    have g₂ := searching_move_gap cfg r₁.1 now₂ r₂ h₂ tok₂ hm₂
    rw [g₁.2] at g₂
    exact g₂.1
  · intro now k
    simpa [initialState] using presetIter_mod now 3 (by norm_num) k initialState
  · intro s now count idx s' hc hnext
    unfold TrackerState.next_preset at hnext
    rw [if_neg (Nat.pos_iff_ne_zero.mp hc)] at hnext
    simp only [Option.some.injEq, Prod.mk.injEq] at hnext
    rw [← hnext.1]
    exact Nat.mod_lt _ hc

/-- Witness for C6 at concrete inputs: a due searching state at time 100
issues the move to preset "1"; the 4th call from process start returns
`4 % 3 = 1`; `next_preset` with 3 presets returns an index `< 3`. -/
theorem searching_preset_schedule_witness :
    ((100 : ℚ) -
        ({ initialState with is_searching := true, last_audio_time := 50 } :
          TrackerState).last_scan_move_time > defaultCfg.SCAN_INTERVAL ∧
      ({ initialState with
          is_searching := true,
          last_audio_time := 50,
          current_preset_idx := 1,
          last_scan_move_time := 100 } :
        TrackerState).last_scan_move_time = 100) ∧
    (presetIter 100 3 4 initialState).map Prod.fst = some (4 % 3) ∧
    (0 : ℕ) % 3 < 3 :=
  ⟨(searching_preset_schedule defaultCfg).1
      { initialState with is_searching := true, last_audio_time := 50 } 100
      ({ initialState with
          is_searching := true,
          last_audio_time := 50,
          current_preset_idx := 1,
          last_scan_move_time := 100 },
        [.gotoPreset "1"])
      (by norm_num [SearchingHandler.handle, TrackerState.is_search_timeout,
        TrackerState.should_move_preset, TrackerState.reset_loss_count,
        TrackerState.next_preset, initialState, defaultCfg])
      "1" (by simp),
    (searching_preset_schedule defaultCfg).2.2.1 100 4,
    (searching_preset_schedule defaultCfg).2.2.2 initialState 100 3 (0 % 3)
      { initialState with
        current_preset_idx := 1,
        last_scan_move_time := 100 }
      (by norm_num)
      (by norm_num [TrackerState.next_preset, initialState])⟩

/-- Sleep checks do nothing once the state is no longer asleep. -/
theorem sleepRun_of_awake (cfg : Cfg) (l : List Bool) (s : TrackerState)
    (h : s.is_sleep_mode = false) : sleepRun cfg l s = s := by
  induction l with
  | nil => rfl
  | cons b rest ih =>
      rw [sleepRun, sleepCycle, if_pos (by rw [h]; rfl)]
      exact ih

/-- From any asleep state, `k ≥ 1` consecutive normal-classified frames with
`normal_frame_count + k` reaching the wake threshold leave sleep mode. -/
theorem sleepRun_wakes (cfg : Cfg) :
    ∀ (k : ℕ) (s : TrackerState), 1 ≤ k → s.is_sleep_mode = true →
      cfg.SLEEP_WAKE_CHECK_COUNT ≤ s.normal_frame_count + k →
      (sleepRun cfg (List.replicate k true) s).is_sleep_mode = false := by
  intro k
  induction k with
  | zero => intro s h1; exact absurd h1 (by norm_num)
  | succ k ih =>
      intro s _ hs hcount
      rw [List.replicate_succ, sleepRun, sleepCycle, if_neg (by simp [hs]),
        if_pos rfl]
      by_cases hwake : (s.increment_normal_count).normal_frame_count ≥
          cfg.SLEEP_WAKE_CHECK_COUNT
      · rw [if_pos hwake,
          sleepRun_of_awake cfg (List.replicate k true)
            (s.increment_normal_count.exit_sleep_mode) rfl]
        rfl
      · rw [if_neg hwake]
        rcases Nat.eq_zero_or_pos k with hk | hk
        · subst hk
          exact absurd hcount (by
            simp only [TrackerState.increment_normal_count] at hwake
            omega)
        · exact ih _ hk hs (by
            simp only [TrackerState.increment_normal_count]
            omega)

/-- C8: entering Sleep (privacy frame detected in the orchestrator loop)
issues a stop command and clears `target_locked` and `is_searching`; while
asleep, `SLEEP_WAKE_CHECK_COUNT` consecutive normal-classified frames exit
Sleep, and a single non-normal frame resets the consecutive-normal counter
to zero. -/
theorem sleep_mode_behavior (cfg : Cfg) (now : ℚ) (s : TrackerState)
    (hwake : 1 ≤ cfg.SLEEP_WAKE_CHECK_COUNT) :
    ((privacyEnter now s).2 = [.stop] ∧
      (privacyEnter now s).1.target_locked = false ∧
      (privacyEnter now s).1.is_searching = false ∧
      (privacyEnter now s).1.is_sleep_mode = true) ∧
    (s.is_sleep_mode = true →
      (sleepRun cfg (List.replicate cfg.SLEEP_WAKE_CHECK_COUNT true)
        s).is_sleep_mode = false) ∧
    (s.is_sleep_mode = true →
      (sleepCycle cfg false s).normal_frame_count = 0 ∧
      (sleepCycle cfg false s).is_sleep_mode = true) := by
  refine ⟨⟨rfl, rfl, rfl, rfl⟩, ?_, ?_⟩
  · intro hs
    exact sleepRun_wakes cfg cfg.SLEEP_WAKE_CHECK_COUNT s hwake hs
      (Nat.le_add_left _ _)
  · intro hs
    rw [sleepCycle, if_neg (by simp [hs])]
    exact ⟨rfl, hs⟩

/-- Witness for C8: the default configuration (wake threshold 3) and a
concrete asleep state with a running normal streak of 1. -/
theorem sleep_mode_behavior_witness :
    ((privacyEnter 7 initialState).2 = [.stop] ∧
      (privacyEnter 7 initialState).1.target_locked = false ∧
      (privacyEnter 7 initialState).1.is_searching = false ∧
      (privacyEnter 7 initialState).1.is_sleep_mode = true) ∧
    (({ initialState with
        is_sleep_mode := true,
        normal_frame_count := 1 } : TrackerState).is_sleep_mode = true →
      (sleepRun defaultCfg
        (List.replicate defaultCfg.SLEEP_WAKE_CHECK_COUNT true)
        { initialState with
          is_sleep_mode := true,
          normal_frame_count := 1 }).is_sleep_mode = false) ∧
    (({ initialState with
        is_sleep_mode := true,
        normal_frame_count := 1 } : TrackerState).is_sleep_mode = true →
      (sleepCycle defaultCfg false
        { initialState with
          is_sleep_mode := true,
          normal_frame_count := 1 }).normal_frame_count = 0 ∧
      (sleepCycle defaultCfg false
        { initialState with
          is_sleep_mode := true,
          normal_frame_count := 1 }).is_sleep_mode = true) :=
  sleep_mode_behavior defaultCfg 7
    { initialState with is_sleep_mode := true, normal_frame_count := 1 }
    (by norm_num [defaultCfg])

/-- With a nonempty preset list, `SearchingHandler.handle` never raises:
the only fallible operations are the modulo in `next_preset` and the
preset-list indexing, and both succeed. -/
theorem indexPresetArm_isSome (cfg : Cfg) (idx : ℕ) (st : TrackerState)
    (hidx : idx < cfg.SEARCH_PRESETS.length) :
    (match cfg.SEARCH_PRESETS[idx]? with
      | none => (none : Option (TrackerState × List PtzAction))
      | some tok => some (st, [PtzAction.gotoPreset tok])).isSome = true := by
  rw [List.getElem?_eq_getElem hidx]
  rfl

/-- With a nonempty preset list, `SearchingHandler.handle` never raises:
the only fallible operations are the modulo in `next_preset` and the
preset-list indexing, and both succeed. -/
theorem searchingHandle_isSome (cfg : Cfg) (now : ℚ) (s : TrackerState)
    (hp : cfg.SEARCH_PRESETS ≠ []) :
    (SearchingHandler.handle cfg now s).isSome = true := by
  have hlen : cfg.SEARCH_PRESETS.length ≠ 0 := by
    simpa using hp
  simp only [SearchingHandler.handle]
  split
  · rfl
  · split
    · rw [TrackerState.next_preset, if_neg hlen]
      exact indexPresetArm_isSome cfg _ _
        (Nat.mod_lt _ (Nat.pos_of_ne_zero hlen))
    · split <;> rfl

/-- C1: routing an evaluation cycle whose detection result is absent
(`detection = None`, covering both a missed frame and an empty detection
list) through `StateRouter.route` completes without raising an exception in
every `TrackerState`, for any configuration whose preset list is nonempty
(the deployed list has three entries). -/
theorem route_none_never_crashes (cfg : Cfg) (pw : ℚ → ℚ) (now w h : ℚ)
    (s : TrackerState) (hp : cfg.SEARCH_PRESETS ≠ []) :
    (StateRouter.route cfg pw now w h none s).isSome = true := by
  simp only [StateRouter.route]
  split
  · split <;> rfl
  · split
    · exact searchingHandle_isSome cfg now s hp
    · rfl

/-- Witness for C1: the default configuration and the process-start state. -/
theorem route_none_never_crashes_witness :
    (StateRouter.route defaultCfg (fun x => x) 0 10 10 none
      initialState).isSome = true :=
  route_none_never_crashes defaultCfg (fun x => x) 0 10 10 initialState
    (by simp [defaultCfg])

/-- The derived mode is `Idle` exactly when all three flags are clear. -/
theorem mode_eq_idle_iff (s : TrackerState) :
    s.mode = .idle ↔ s.is_sleep_mode = false ∧ s.target_locked = false ∧
      s.is_searching = false := by
  unfold TrackerState.mode
  split_ifs <;> simp_all

/-- Projections of `TrackingHandler.handle` on a primary-class detection:
the state is locked, searching is cleared, sleep is untouched, the loss
count is zero. -/
theorem tracking_primary_proj (cfg : Cfg) (pw : ℚ → ℚ) (now w h : ℚ)
    (d : Detection) (s : TrackerState) (hd : d.class_id = 1) :
    (TrackingHandler.handle cfg pw now w h (some d) s).1.target_locked = true ∧
    (TrackingHandler.handle cfg pw now w h (some d) s).1.is_searching = false ∧
    (TrackingHandler.handle cfg pw now w h (some d) s).1.is_sleep_mode =
      s.is_sleep_mode ∧
    (TrackingHandler.handle cfg pw now w h (some d) s).1.loss_count = 0 := by
  by_cases h : s.loss_count > 0 <;>
    simp [TrackingHandler.handle, hd, h, trackAndDispatch,
      TrackerState.lock_target, TrackerState.reset_fallback_timer,
      TrackerState.update_last_target_pos, TrackerState.reset_loss_count]
  omega

/-- A detection-free cycle on a locked state within the patience budget:
increment the loss count, stay locked, issue exactly one stop. -/
theorem route_none_grace (cfg : Cfg) (pw : ℚ → ℚ) (now w h : ℚ)
    (s : TrackerState) (hl : s.target_locked = true)
    (hb : s.loss_count + 1 ≤ cfg.TRACKING_PATIENCE_COUNT) :
    StateRouter.route cfg pw now w h none s =
      some ({ s with loss_count := s.loss_count + 1 }, [.stop]) := by
  simp only [StateRouter.route]
  rw [if_pos hl, if_neg ?hno]
  case hno =>
    simp only [TrackerState.increment_loss_count,
      TrackerState.is_loss_patience_exceeded, decide_eq_true_eq, gt_iff_lt,
      not_lt]
    omega
  rfl

/-- Unfolding one more detection-free cycle at the end of a run. -/
theorem cyclesNone_succ (cfg : Cfg) (pw : ℚ → ℚ) (now w h : ℚ) (k : ℕ)
    (s s' : TrackerState) (l : List (List PtzAction))
    (hk : cyclesNone cfg pw now w h k s = some (s', l))
    (s'' : TrackerState) (as : List PtzAction)
    (hr : StateRouter.route cfg pw now w h none s' = some (s'', as)) :
    cyclesNone cfg pw now w h (k + 1) s = some (s'', l ++ [as]) := by
  rw [cyclesNone]
  simp only [hk, hr]

/-- A detection-free cycle on a locked state exhausting the patience
budget: stop, unlock, clear the loss count. -/
theorem route_none_lost (cfg : Cfg) (pw : ℚ → ℚ) (now w h : ℚ)
    (s : TrackerState) (hl : s.target_locked = true)
    (hb : s.loss_count + 1 > cfg.TRACKING_PATIENCE_COUNT) :
    StateRouter.route cfg pw now w h none s =
      some ({ s with
        loss_count := 0,
        target_locked := false,
        was_tracking := false }, [.stop]) := by
  simp only [StateRouter.route]
  rw [if_pos hl, if_pos ?hex]
  case hex =>
    simp only [TrackerState.increment_loss_count,
      TrackerState.is_loss_patience_exceeded, decide_eq_true_eq, gt_iff_lt]
    omega
  rfl

/-- Iterated detection-free cycles within the patience budget keep the
state locked and accumulate one stop request per cycle. -/
theorem cyclesNone_grace (cfg : Cfg) (pw : ℚ → ℚ) (now w h : ℚ) :
    ∀ (k : ℕ) (s : TrackerState), s.target_locked = true →
      s.loss_count + k ≤ cfg.TRACKING_PATIENCE_COUNT →
      cyclesNone cfg pw now w h k s =
        some ({ s with loss_count := s.loss_count + k },
          List.replicate k [PtzAction.stop]) := by
  intro k
  induction k with
  | zero => intro s hl hb; rfl
  | succ k ih =>
      intro s hl hb
      have h1 := ih s hl (by omega)
      have h2 := route_none_grace cfg pw now w h
        { s with loss_count := s.loss_count + k } hl
        (by show s.loss_count + k + 1 ≤ cfg.TRACKING_PATIENCE_COUNT; omega)
      have h3 := cyclesNone_succ cfg pw now w h k s _ _ h1 _ _ h2
      rw [h3, ← List.replicate_succ']
      rfl

/-- C2: from Idle, one cycle with a primary-class detection locks the
target (Tracking); then each detection-free cycle increments `lossCount`
and, for every count up to `TRACKING_PATIENCE_COUNT`, stays in Tracking
while issuing exactly one stop command per cycle; the first cycle beyond
the budget issues a stop, resets `lossCount`, and leaves Tracking for Idle
or Searching. -/
theorem tracking_patience_state_machine (cfg : Cfg) (pw : ℚ → ℚ)
    (now w h : ℚ) (d : Detection) (s₀ : TrackerState)
    (hd : d.class_id = 1) (h0 : s₀.mode = .idle) :
    ∃ s₁ as₁,
      StateRouter.route cfg pw now w h (some d) s₀ = some (s₁, as₁) ∧
      s₁.mode = .tracking ∧ s₁.loss_count = 0 ∧
      (∀ k, k ≤ cfg.TRACKING_PATIENCE_COUNT →
        cyclesNone cfg pw now w h k s₁ =
          some ({ s₁ with loss_count := k }, List.replicate k [.stop]) ∧
        ({ s₁ with loss_count := k } : TrackerState).mode = .tracking) ∧
      (∃ sf, cyclesNone cfg pw now w h (cfg.TRACKING_PATIENCE_COUNT + 1) s₁ =
          some (sf,
            List.replicate (cfg.TRACKING_PATIENCE_COUNT + 1) [.stop]) ∧
        sf.target_locked = false ∧ sf.loss_count = 0 ∧
        (sf.mode = .idle ∨ sf.mode = .searching)) := by
  obtain ⟨hsleep, -, -⟩ := (mode_eq_idle_iff s₀).mp h0
  obtain ⟨hlock1, hsearch1, hsleep1, hloss1⟩ :=
    tracking_primary_proj cfg pw now w h d s₀ hd
  rw [hsleep] at hsleep1
  refine ⟨(TrackingHandler.handle cfg pw now w h (some d) s₀).1,
    (TrackingHandler.handle cfg pw now w h (some d) s₀).2, rfl, ?_, hloss1,
    ?_, ?_⟩
  · simp [TrackerState.mode, hsleep1, hlock1]
  · intro k hk
    have hg := cyclesNone_grace cfg pw now w h k
      (TrackingHandler.handle cfg pw now w h (some d) s₀).1 hlock1
      (by omega)
    rw [hloss1, Nat.zero_add] at hg
    exact ⟨hg, by simp [TrackerState.mode, hsleep1, hlock1]⟩
  · have hg := cyclesNone_grace cfg pw now w h cfg.TRACKING_PATIENCE_COUNT
      (TrackingHandler.handle cfg pw now w h (some d) s₀).1 hlock1
      (by omega)
    rw [hloss1, Nat.zero_add] at hg
    have h2 := route_none_lost cfg pw now w h
      { (TrackingHandler.handle cfg pw now w h (some d) s₀).1 with
        loss_count := cfg.TRACKING_PATIENCE_COUNT } hlock1
      (by show cfg.TRACKING_PATIENCE_COUNT + 1 > cfg.TRACKING_PATIENCE_COUNT
          omega)
    have h3 := cyclesNone_succ cfg pw now w h cfg.TRACKING_PATIENCE_COUNT
      (TrackingHandler.handle cfg pw now w h (some d) s₀).1 _ _ hg _ _ h2
    refine ⟨{ (TrackingHandler.handle cfg pw now w h (some d) s₀).1 with
      loss_count := 0,
      target_locked := false,
      was_tracking := false },
      ?_, rfl, rfl, Or.inl ?_⟩
    · rw [h3, ← List.replicate_succ']
    · simp [TrackerState.mode, hsleep1, hsearch1]

/-- Witness for C2: the default configuration, the process-start state, a
centered primary detection, and the identity powering function. -/
theorem tracking_patience_state_machine_witness :
    (⟨4, 4, 6, 6, 9/10, 7/10, 1⟩ : Detection).class_id = 1 ∧
    initialState.mode = .idle ∧
    (∃ s₁ as₁,
      StateRouter.route defaultCfg (fun x => x) 0 10 10
          (some ⟨4, 4, 6, 6, 9/10, 7/10, 1⟩) initialState = some (s₁, as₁) ∧
      s₁.mode = .tracking ∧ s₁.loss_count = 0 ∧
      (∀ k, k ≤ defaultCfg.TRACKING_PATIENCE_COUNT →
        cyclesNone defaultCfg (fun x => x) 0 10 10 k s₁ =
          some ({ s₁ with loss_count := k }, List.replicate k [.stop]) ∧
        ({ s₁ with loss_count := k } : TrackerState).mode = .tracking) ∧
      (∃ sf, cyclesNone defaultCfg (fun x => x) 0 10 10
          (defaultCfg.TRACKING_PATIENCE_COUNT + 1) s₁ =
          some (sf,
            List.replicate (defaultCfg.TRACKING_PATIENCE_COUNT + 1) [.stop]) ∧
        sf.target_locked = false ∧ sf.loss_count = 0 ∧
        (sf.mode = .idle ∨ sf.mode = .searching))) :=
  ⟨rfl, rfl,
    tracking_patience_state_machine defaultCfg (fun x => x) 0 10 10
      ⟨4, 4, 6, 6, 9/10, 7/10, 1⟩ initialState rfl rfl⟩

/-- C3 counterexample: with the default configuration
(`MAX_FALLBACK_DURATION = 5`), a Tracking state whose fallback episode
started at time 100, routed at time 105 — elapsed fallback duration exactly
`MAX_FALLBACK_DURATION` — with a fallback-class (class 0) detection: the
handler keeps `target_locked = true` and keeps the fallback timer at 100
(and dispatches a velocity command), instead of stopping the camera,
clearing the tracking flags and transitioning out of Tracking as the claim
requires once the elapsed duration *reaches* the threshold; the code only
times out when the elapsed duration strictly exceeds it. -/
theorem fallback_timeout_boundary_counterexample :
    (StateRouter.route defaultCfg (fun x => x) 105 10 10
        (some ⟨4, 4, 6, 6, 9/10, 7/10, 0⟩)
        { initialState with
          target_locked := true,
          was_tracking := true,
          fallback_start_time := 100 }).map
      (fun r => (r.1.target_locked, r.1.fallback_start_time)) =
      some (true, 100) := by
  norm_num [StateRouter.route, TrackingHandler.handle, trackAndDispatch,
    TrackerState.is_fallback_timeout, TrackerState.lock_target,
    TrackerState.start_fallback_timer, initialState, defaultCfg]

/-- C3 (amended): while Tracking follows a fallback-class target without
primary reacquisition, the first fallback cycle records the fallback start
time; once the elapsed fallback duration *strictly exceeds*
`MAX_FALLBACK_DURATION` the handler stops the camera, clears the tracking
flags and the timer, and transitions out of Tracking, while at any instant
before or at that threshold it remains in Tracking and dispatches a
velocity command for the fallback target (stated here for strictly-before
instants, as the claim does). -/
theorem fallback_duration_amended (cfg : Cfg) (pw : ℚ → ℚ)
    (now now' w h : ℚ) (d : Detection) (s : TrackerState)
    (hd : ¬d.class_id = 1) :
    (s.fallback_start_time = 0 → 0 ≤ cfg.MAX_FALLBACK_DURATION →
      ∃ s₁ p t,
        StateRouter.route cfg pw now w h (some d) s =
          some (s₁, [.setVelocity p t]) ∧
        s₁.fallback_start_time = now ∧ s₁.target_locked = true) ∧
    (s.fallback_start_time ≠ 0 →
      now' - s.fallback_start_time < cfg.MAX_FALLBACK_DURATION →
      ∃ s₂,
        StateRouter.route cfg pw now' w h (some d) s =
          some (s₂, [.setVelocity
            (VelocityCalculator.calculate cfg pw d.center.1 d.center.2 w h).1
            (VelocityCalculator.calculate cfg pw d.center.1 d.center.2 w h).2]) ∧
        s₂.target_locked = true) ∧
    (s.fallback_start_time ≠ 0 →
      now' - s.fallback_start_time > cfg.MAX_FALLBACK_DURATION →
      ∃ s₃,
        StateRouter.route cfg pw now' w h (some d) s = some (s₃, [.stop]) ∧
        s₃.target_locked = false ∧ s₃.was_tracking = false ∧
        s₃.fallback_start_time = 0) := by
  have hufb : ∀ u : TrackerState,
      u = (if s.loss_count > 0 then s.reset_loss_count else s) →
      u.fallback_start_time = s.fallback_start_time := by
    intro u hu
    rw [hu]
    split <;> rfl
  refine ⟨?_, ?_, ?_⟩
  · intro h0 hdur
    simp only [StateRouter.route, TrackingHandler.handle]
    rw [if_neg hd,
      hufb (if s.loss_count > 0 then s.reset_loss_count else s) rfl,
      if_pos h0]
    have hntto : ¬(((if s.loss_count > 0 then s.reset_loss_count else
        s).start_fallback_timer now).is_fallback_timeout now
          cfg.MAX_FALLBACK_DURATION = true) := by
      simp only [TrackerState.start_fallback_timer,
        TrackerState.is_fallback_timeout, decide_eq_true_eq, gt_iff_lt,
        not_lt]
      linarith
    rw [if_neg hntto]
    exact ⟨_, _, _, rfl, rfl, rfl⟩
  · intro h0 hlt
    simp only [StateRouter.route, TrackingHandler.handle]
    rw [if_neg hd,
      hufb (if s.loss_count > 0 then s.reset_loss_count else s) rfl,
      if_neg h0]
    have hntto : ¬((if s.loss_count > 0 then s.reset_loss_count else
        s).is_fallback_timeout now' cfg.MAX_FALLBACK_DURATION = true) := by
      simp only [TrackerState.is_fallback_timeout, decide_eq_true_eq,
        gt_iff_lt, not_lt,
        hufb (if s.loss_count > 0 then s.reset_loss_count else s) rfl]
      linarith
    rw [if_neg hntto]
    exact ⟨_, rfl, rfl⟩
  · intro h0 hgt
    simp only [StateRouter.route, TrackingHandler.handle]
    rw [if_neg hd,
      hufb (if s.loss_count > 0 then s.reset_loss_count else s) rfl,
      if_neg h0]
    have htto : (if s.loss_count > 0 then s.reset_loss_count else
        s).is_fallback_timeout now' cfg.MAX_FALLBACK_DURATION = true := by
      simp only [TrackerState.is_fallback_timeout, decide_eq_true_eq,
        gt_iff_lt,
        hufb (if s.loss_count > 0 then s.reset_loss_count else s) rfl]
      linarith
    rw [if_pos htto]
    exact ⟨_, rfl, rfl, rfl, rfl⟩

/-- Witness for C3's amended theorem: default configuration, a fallback
(class 0) detection, a fresh Tracking state at time 100 (records the
timer), and a running episode checked one instant before (104) and one
instant after (106) the 5-second budget relative to start time 100. -/
theorem fallback_duration_amended_witness :
    (({ initialState with
        target_locked := true,
        was_tracking := true,
        fallback_start_time := 100 } : TrackerState).fallback_start_time ≠ 0 →
      (104 : ℚ) - ({ initialState with
        target_locked := true,
        was_tracking := true,
        fallback_start_time := 100 } : TrackerState).fallback_start_time <
          defaultCfg.MAX_FALLBACK_DURATION →
      ∃ s₂,
        StateRouter.route defaultCfg (fun x => x) 104 10 10
            (some ⟨4, 4, 6, 6, 9/10, 7/10, 0⟩)
            { initialState with
              target_locked := true,
              was_tracking := true,
              fallback_start_time := 100 } =
          some (s₂, [.setVelocity
            (VelocityCalculator.calculate defaultCfg (fun x => x)
              (⟨4, 4, 6, 6, 9/10, 7/10, 0⟩ : Detection).center.1
              (⟨4, 4, 6, 6, 9/10, 7/10, 0⟩ : Detection).center.2 10 10).1
            (VelocityCalculator.calculate defaultCfg (fun x => x)
              (⟨4, 4, 6, 6, 9/10, 7/10, 0⟩ : Detection).center.1
              (⟨4, 4, 6, 6, 9/10, 7/10, 0⟩ : Detection).center.2 10 10).2]) ∧
        s₂.target_locked = true) ∧
    (({ initialState with
        target_locked := true,
        was_tracking := true,
        fallback_start_time := 100 } : TrackerState).fallback_start_time ≠ 0 →
      (106 : ℚ) - ({ initialState with
        target_locked := true,
        was_tracking := true,
        fallback_start_time := 100 } : TrackerState).fallback_start_time >
          defaultCfg.MAX_FALLBACK_DURATION →
      ∃ s₃,
        StateRouter.route defaultCfg (fun x => x) 106 10 10
            (some ⟨4, 4, 6, 6, 9/10, 7/10, 0⟩)
            { initialState with
              target_locked := true,
              was_tracking := true,
              fallback_start_time := 100 } =
          some (s₃, [.stop]) ∧
        s₃.target_locked = false ∧ s₃.was_tracking = false ∧
        s₃.fallback_start_time = 0) ∧
    ((100 : ℚ) - ({ initialState with
        target_locked := true,
        was_tracking := true,
        fallback_start_time := 100 } : TrackerState).fallback_start_time <
        defaultCfg.MAX_FALLBACK_DURATION) :=
  ⟨(fallback_duration_amended defaultCfg (fun x => x) 0 104 10 10
      ⟨4, 4, 6, 6, 9/10, 7/10, 0⟩
      { initialState with
        target_locked := true,
        was_tracking := true,
        fallback_start_time := 100 } (by norm_num)).2.1,
    (fallback_duration_amended defaultCfg (fun x => x) 0 106 10 10
      ⟨4, 4, 6, 6, 9/10, 7/10, 0⟩
      { initialState with
        target_locked := true,
        was_tracking := true,
        fallback_start_time := 100 } (by norm_num)).2.2,
    by norm_num [initialState, defaultCfg]⟩

end Jeonghoo
